import Mathlib

/-!
Shallow embedding of the `BibliographyManager` core of
`src/gwt/panmirror/src/editor/src/api/bibliography/bibliography.ts`,
together with proofs of the specified properties.

The manager aggregates bibliographic sources from a list of data
providers (a local-file provider followed by a remote Zotero provider),
deduplicates them by `id`, indexes them for fuzzy search (fuse.js), and
enforces a write-permission policy over discovered bibliography files.

Modelling conventions:
- JavaScript `undefined`-able values become `Option`.
- The asynchronous methods are modelled by their resolved values: a
  provider is a record of the data its methods return for the current
  document context (its `load()` result, its `items()` after that load,
  its `bibliographyPaths`, and the resolved value of its
  `generateBibLaTeX`).
- The fuse.js index object is modelled by the snapshot of sources it was
  built from; the fuse search itself is modelled from the spec (see
  `fuseSearch`), since fuse.js is an external library.
- The provider implementations (`bibliography-provider_local.ts`,
  `bibliography-provider_zotero.ts`) and the generic converter
  (`bibDB.ts`) are not part of the sources under verification; the few
  facts needed about them are modelled from the spec and marked as such.
-/

/-- A name entry of a CSL author list (open CSL schema fields used by the
search index: `author.family`, `author.given`, `author.literal`). -/
structure CSLName where
  family : String := ""
  given : String := ""
  literal : String := ""
deriving DecidableEq

/-- Modelled from the spec: the CSL record type (`../csl`, not under the
verified sources). Per the data model, a source carries free-form
bibliographic metadata fields (title, authors, issued date, DOI, ...) —
an open schema. The open-schema field `provider` is included because
`searchAllSources` reads it; the spec lists no `provider` attribute on
sources, so on sources built per the data model it is absent (`none`),
which is how JavaScript property access on a missing key behaves. -/
structure CSL where
  type : String := ""
  title : String := ""
  author : List CSLName := []
  issued : String := ""
  DOI : String := ""
  provider : Option String := none
deriving DecidableEq

/-- The individual bibliographic source (interface `BibliographySource
extends CSL`). -/
structure BibliographySource extends CSL where
  id : String
  providerKey : String
  collectionKeys : List String
deriving DecidableEq

/-- A discovered bibliography file (interface `BibliographyFile`). -/
structure BibliographyFile where
  displayPath : String := ""
  fullPath : String := ""
  isProject : Bool := false
  writable : Bool
deriving DecidableEq

/-- A bibliography data provider (interface `BibliographyDataProvider`),
modelled by the data its methods deliver for the current document
context: `loadChanged` is the boolean its `load()` resolves to, `items`
is what `items()` returns after that load, `bibliographyPaths` is what
`bibliographyPaths(doc, ui)` returns, and `genBibLaTeX` gives the
resolved value of its `generateBibLaTeX(ui, id, csl)`. The members not
exercised by the verified code paths (`collections`,
`itemsForCollection`, `warningMessage`) are omitted. -/
structure BibliographyDataProvider where
  key : String
  name : String := ""
  loadChanged : Bool
  items : List BibliographySource
  bibliographyPaths : List BibliographyFile := []
  genBibLaTeX : String → CSL → Option String := fun _ _ => none

/-- Modelled from the spec: the key of the local-file provider
(`kLocalBiliographyProviderKey`, exported by
`bibliography-provider_local.ts`, which is not under the verified
sources). The value is a fixed distinguished constant; the verified
code depends only on it being a fixed key. -/
def kLocalBiliographyProviderKey : String := "biblio-local"

/-- Modelled from the spec: the key of the remote Zotero provider
(`kZoteroProviderKey`, exported by `bibliography-provider_zotero.ts`). -/
def kZoteroProviderKey : String := "biblio-zotero"

/-- Modelled from the spec: the generic CSL to BibLaTeX text conversion
(`toBibLaTeX` from `bibDB.ts`, an external collaborator out of scope):
produces a textual rendering of the record. -/
def toBibLaTeX (id : String) (csl : CSL) : Option String :=
  some ("@" ++ csl.type ++ " " ++ id ++ " " ++ csl.title)

/-- Worker for `uniqById` carrying the list of ids already seen. -/
def uniqByIdGo : List BibliographySource → List String → List BibliographySource
  | [], _ => []
  | s :: rest, seen =>
    if s.id ∈ seen then uniqByIdGo rest seen
    else s :: uniqByIdGo rest (s.id :: seen)

/-- lodash `uniqby(list, source => source.id)`: keeps, for each `id`, the
first element of the list bearing it, in order of first occurrence. -/
def uniqById (l : List BibliographySource) : List BibliographySource :=
  uniqByIdGo l []

/-- JavaScript truthiness of an optional string argument: `undefined`
and the empty string are falsy. -/
def truthy : Option String → Bool
  | none => false
  | some s => !(s == "")

/-- Case-insensitive containment of `pat` starting at the head of `hay`. -/
def matchFrom : List Char → List Char → Bool
  | _, [] => true
  | [], _ :: _ => false
  | h :: t, p :: q => h == p && matchFrom t q

/-- Containment of `pat` anywhere inside `hay`. -/
def hasSub : List Char → List Char → Bool
  | [], pat => pat.isEmpty
  | h :: t, pat => matchFrom (h :: t) pat || hasSub t pat

/-- Case-insensitive substring test on strings: both sides are lowered
character-wise, then containment is checked. -/
def containsCI (hay pat : String) : Bool :=
  hasSub (hay.toList.map Char.toLower) (pat.toList.map Char.toLower)

/-- Modelled from the spec: whether a source matches a fuse.js query —
case-insensitive matching over the indexed fields (`kFields`): `id`,
`author.family`, `author.literal`, `title`, `author.given`, `issued`,
`provider`. -/
def matchesQuery (query : String) (s : BibliographySource) : Bool :=
  containsCI s.id query ||
  s.author.any (fun a => containsCI a.family query) ||
  s.author.any (fun a => containsCI a.literal query) ||
  containsCI s.title query ||
  s.author.any (fun a => containsCI a.given query) ||
  containsCI s.issued query ||
  containsCI (s.provider.getD "") query

/-- Modelled from the spec: `fuse.search(query, options)` on an index
built over `snapshot` — the matching items, sorted by descending
relevance (snapshot order stands in for the relevance order, which the
spec leaves to the external library), truncated to `limit` matches. -/
def fuseSearch (snapshot : List BibliographySource) (query : String) (limit : Nat) :
    List BibliographySource :=
  (snapshot.filter (matchesQuery query)).take limit

/-- The manager state. `fuse` is the index, modelled by the source
snapshot it was built from (`none` before any build); `providers` is the
registered provider list; `sources` is the aggregate source field
(`none` before the first rebuilding `load()`); `writable` is the cached
write-permission flag (`none` before the first `load()`). -/
structure BibliographyManager where
  fuse : Option (List BibliographySource) := none
  providers : List BibliographyDataProvider
  sources : Option (List BibliographySource) := none
  writable : Option Bool := none

/-- The constructor (`bibliography.ts` lines 87-89): registers the
local-file provider followed by the Zotero provider; nothing is loaded
yet. The provider class instances are passed in as values. -/
def BibliographyManager.init
    (localProvider zoteroProvider : BibliographyDataProvider) : BibliographyManager :=
  { fuse := none
    providers := [localProvider, zoteroProvider]
    sources := none
    writable := none }

/-- `bibliographyFiles(doc, ui)`: the concatenation of every provider's
`bibliographyPaths`. -/
def BibliographyManager.bibliographyFiles (mgr : BibliographyManager) :
    List BibliographyFile :=
  (mgr.providers.map (fun provider => provider.bibliographyPaths)).flatten

/-- `shouldAllowWrites(doc, ui)`: writing is allowed when no
bibliography file was discovered, or when at least one discovered file
is writable. -/
def BibliographyManager.shouldAllowWrites (mgr : BibliographyManager) : Bool :=
  let bibliographyFiles := mgr.bibliographyFiles
  if bibliographyFiles.length = 0 then
    true
  else
    (bibliographyFiles.filter (fun bibFile => bibFile.writable)).length > 0

/-- `isWritable()`: `this.writable || false`. -/
def BibliographyManager.isWritable (mgr : BibliographyManager) : Bool :=
  mgr.writable.getD false

/-- `updateIndex(bibSources)`: rebuilds the fuse index over the given
sources. -/
def BibliographyManager.updateIndex (mgr : BibliographyManager)
    (bibSources : List BibliographySource) : BibliographyManager :=
  { mgr with fuse := some bibSources }

/-- JavaScript `Array.prototype.reduce((prev, curr) => prev || curr)`
without a seed: the first element seeds the fold. The source only
applies it to the per-provider results, and the constructor registers
two providers, so the empty case (where the JavaScript reduce would
throw) is unreachable; it is mapped to `false`. -/
def reduceOr : List Bool → Bool
  | [] => false
  | b :: rest => rest.foldl (fun prev curr => prev || curr) b

/-- `load(ui, doc)`: loads every provider, recomputes `writable`, and —
only when some provider reported a change — recomputes the aggregate
source list (concatenation of all providers' items, registration order)
and rebuilds the index. -/
def BibliographyManager.load (mgr : BibliographyManager) : BibliographyManager :=
  let providersNeedUpdate := mgr.providers.map (fun provider => provider.loadChanged)
  let mgr1 : BibliographyManager := { mgr with writable := some mgr.shouldAllowWrites }
  let needsIndexUpdate := reduceOr providersNeedUpdate
  if needsIndexUpdate then
    let providersEntries := mgr1.providers.map (fun provider => provider.items)
    let sources := providersEntries.flatten
    ({ mgr1 with sources := some sources } : BibliographyManager).updateIndex sources
  else
    mgr1

/-- `allSources()`: the aggregate list deduplicated by `id`; when the
aggregate is not writable (or nothing is loaded), first restricted to
the local provider's sources. -/
def BibliographyManager.allSources (mgr : BibliographyManager) :
    List BibliographySource :=
  if mgr.sources.isSome && mgr.isWritable then
    uniqById (mgr.sources.getD [])
  else
    uniqById ((mgr.sources.getD []).filter
      (fun source => source.providerKey == kLocalBiliographyProviderKey))

/-- `hasSources()`. -/
def BibliographyManager.hasSources (mgr : BibliographyManager) : Bool :=
  mgr.allSources.length > 0

/-- `sourcesForProvider(providerKey)`. -/
def BibliographyManager.sourcesForProvider (mgr : BibliographyManager)
    (providerKey : String) : List BibliographySource :=
  uniqById (mgr.allSources.filter (fun item => item.providerKey == providerKey))

/-- `sourcesForProviderCollection(provider, collectionKey)`. -/
def BibliographyManager.sourcesForProviderCollection (mgr : BibliographyManager)
    (provider : String) (collectionKey : String) : List BibliographySource :=
  uniqById ((mgr.sourcesForProvider provider).filter
    (fun item => item.collectionKeys.contains collectionKey))

/-- `localSources()`. -/
def BibliographyManager.localSources (mgr : BibliographyManager) :
    List BibliographySource :=
  mgr.allSources.filter (fun source => source.providerKey == kLocalBiliographyProviderKey)

/-- `localProviders()`: returns `this.providers` unchanged. -/
def BibliographyManager.localProviders (mgr : BibliographyManager) :
    List BibliographyDataProvider :=
  mgr.providers

/-- `generateBibLaTeX(ui, id, csl, provider?)`. In the source the
provider branch tests `if (dataProviderBibLaTeX)` on the *promise
object* returned by the provider, which is always truthy, so whenever a
provider with the given key exists its resolved value is returned as
the overall result — the fallback on the last line runs only when no
provider matches the key. -/
def BibliographyManager.generateBibLaTeX (mgr : BibliographyManager)
    (id : String) (csl : CSL) (provider : Option String) : Option String :=
  match mgr.providers.find? (fun prov => some prov.key == provider) with
  | some dataProvider => dataProvider.genBibLaTeX id csl
  | none => toBibLaTeX id csl

/-- `searchAllSources(query, limit)`: fuse hits, then — when the
bibliography is not writable — a filter that compares the open-schema
`provider` field (not `providerKey`) against the local key, then
deduplication by `id`. -/
def BibliographyManager.searchAllSources (mgr : BibliographyManager)
    (query : String) (limit : Nat) : List BibliographySource :=
  match mgr.fuse with
  | some snapshot =>
    let results := fuseSearch snapshot query limit
    let items := results
    let filteredItems :=
      if mgr.isWritable then items
      else items.filter (fun item => item.provider == some kLocalBiliographyProviderKey)
    uniqById filteredItems
  | none => []

/-- `searchProvider(query, limit, providerKey)`. -/
def BibliographyManager.searchProvider (mgr : BibliographyManager)
    (query : String) (limit : Nat) (providerKey : String) : List BibliographySource :=
  (mgr.searchAllSources query limit).filter (fun item => item.providerKey == providerKey)

/-- `searchProviderCollection(query, limit, providerKey, collectionKey)`. -/
def BibliographyManager.searchProviderCollection (mgr : BibliographyManager)
    (query : String) (limit : Nat) (providerKey : String) (collectionKey : String) :
    List BibliographySource :=
  (mgr.searchProvider query limit providerKey).filter
    (fun item => item.collectionKeys.contains collectionKey)

/-- `search(query?, providerKey?, collectionKey?)`: the dispatch table on
the truthiness of the optional arguments, with the 1000-match limit for
the fuzzy branches. -/
def BibliographyManager.search (mgr : BibliographyManager)
    (query providerKey collectionKey : Option String) : List BibliographySource :=
  let limit := 1000
  if truthy query then
    if truthy providerKey && truthy collectionKey then
      mgr.searchProviderCollection (query.getD "") limit (providerKey.getD "")
        (collectionKey.getD "")
    else if truthy providerKey then
      mgr.searchProvider (query.getD "") limit (providerKey.getD "")
    else
      mgr.searchAllSources (query.getD "") limit
  else
    if truthy providerKey && truthy collectionKey then
      mgr.sourcesForProviderCollection (providerKey.getD "") (collectionKey.getD "")
    else if truthy providerKey then
      mgr.sourcesForProvider (providerKey.getD "")
    else
      mgr.allSources

/-- `findDoiInLocalBibliography(doi)`. -/
def BibliographyManager.findDoiInLocalBibliography (mgr : BibliographyManager)
    (doi : String) : Option BibliographySource :=
  mgr.localSources.find? (fun source => source.DOI == doi)

/-- `findIdInLocalBibliography(id)`. -/
def BibliographyManager.findIdInLocalBibliography (mgr : BibliographyManager)
    (id : String) : Option BibliographySource :=
  mgr.localSources.find? (fun source => source.id == id)

/-! Concrete states used to instantiate the theorems. -/

/-- Local source `a1` of the two-provider scenario. -/
def c1A1Local : BibliographySource :=
  { id := "a1", providerKey := kLocalBiliographyProviderKey, collectionKeys := [] }

/-- Local source `b1` of the two-provider scenario. -/
def c1B1Local : BibliographySource :=
  { id := "b1", providerKey := kLocalBiliographyProviderKey, collectionKeys := [] }

/-- Remote source with the duplicate id `a1`. -/
def c1A1Zotero : BibliographySource :=
  { id := "a1", providerKey := kZoteroProviderKey, collectionKeys := [] }

/-- Remote source `c1`. -/
def c1C1Zotero : BibliographySource :=
  { id := "c1", providerKey := kZoteroProviderKey, collectionKeys := [] }

/-- Local provider of the two-provider scenario: items `[a1, b1]`, no
bibliography files discovered (so the aggregate is writable). -/
def c1LocalProvider : BibliographyDataProvider :=
  { key := kLocalBiliographyProviderKey, loadChanged := true,
    items := [c1A1Local, c1B1Local] }

/-- Remote provider of the two-provider scenario: items `[a1, c1]`. -/
def c1ZoteroProvider : BibliographyDataProvider :=
  { key := kZoteroProviderKey, loadChanged := true,
    items := [c1A1Zotero, c1C1Zotero] }

/-- The two-provider scenario manager, after one `load()`:
`writable = true`, aggregate `[a1(local), b1, a1(zotero), c1]`. -/
def c1Manager : BibliographyManager :=
  (BibliographyManager.init c1LocalProvider c1ZoteroProvider).load

/-- A loaded, writable sample manager reused to instantiate
hypothesis-bearing theorems. -/
def sampleManager : BibliographyManager :=
  (BibliographyManager.init
    { key := kLocalBiliographyProviderKey, loadChanged := true,
      items := [{ id := "s1", providerKey := kLocalBiliographyProviderKey,
                  collectionKeys := ["col"] }] }
    { key := kZoteroProviderKey, loadChanged := true,
      items := [{ id := "s2", providerKey := kZoteroProviderKey,
                  collectionKeys := [] }] }).load

/-- A CSL record for the BibLaTeX-generation input. -/
def c2CSL : CSL := { type := "article", title := "A Title" }

/-- A Zotero provider whose BibLaTeX generator resolves to `undefined`
for every request. -/
def c2ZoteroProvider : BibliographyDataProvider :=
  { key := kZoteroProviderKey, loadChanged := false, items := [],
    genBibLaTeX := fun _ _ => none }

/-- Manager holding the generator-less Zotero provider. -/
def c2Manager : BibliographyManager :=
  BibliographyManager.init
    { key := kLocalBiliographyProviderKey, loadChanged := false, items := [] }
    c2ZoteroProvider

/-- A local source whose id matches the query `smith`. -/
def c3SmithSource : BibliographySource :=
  { id := "smith2020", title := "On Smithing",
    providerKey := kLocalBiliographyProviderKey, collectionKeys := [] }

/-- A remote source that also matches the query `smith`. -/
def c3RemoteSource : BibliographySource :=
  { id := "smith2021", title := "More Smithing",
    providerKey := kZoteroProviderKey, collectionKeys := [] }

/-- A local provider that discovered one non-writable bibliography file,
making the aggregate non-writable. -/
def c3LocalProvider : BibliographyDataProvider :=
  { key := kLocalBiliographyProviderKey, loadChanged := true,
    items := [c3SmithSource],
    bibliographyPaths := [{ fullPath := "refs.bib", writable := false }] }

/-- Remote provider holding the remote `smith` source. -/
def c3ZoteroProvider : BibliographyDataProvider :=
  { key := kZoteroProviderKey, loadChanged := true, items := [c3RemoteSource] }

/-- A loaded, non-writable manager whose index holds a matching local
source and a matching remote source. -/
def c3Manager : BibliographyManager :=
  (BibliographyManager.init c3LocalProvider c3ZoteroProvider).load

/-- The source duplicated 1001 times for the result-cap experiment. -/
def c4Source : BibliographySource :=
  { id := "aaa", providerKey := kLocalBiliographyProviderKey, collectionKeys := [] }

/-- 1001 identically-identified sources: more than the 1000-match cap. -/
def c4Snapshot : List BibliographySource := List.replicate 1001 c4Source

/-- A writable manager whose index holds the 1001 duplicate sources. -/
def c4Manager : BibliographyManager :=
  { fuse := some c4Snapshot, providers := [], sources := some c4Snapshot,
    writable := some true }

/-- A loaded manager both of whose providers report `changed = false` on
the next `load()`. -/
def c5Manager : BibliographyManager :=
  { fuse := some [c1A1Local], providers :=
      [{ key := kLocalBiliographyProviderKey, loadChanged := false,
         items := [c1A1Local] },
       { key := kZoteroProviderKey, loadChanged := false, items := [] }],
    sources := some [c1A1Local], writable := some true }

/-- A freshly constructed manager on which `load()` has never run. -/
def c8Manager : BibliographyManager :=
  BibliographyManager.init
    { key := kLocalBiliographyProviderKey, loadChanged := true,
      items := [c1A1Local] }
    { key := kZoteroProviderKey, loadChanged := true, items := [c1C1Zotero] }

/-! Lemmas about `uniqById`. -/

theorem uniqByIdGo_subset (l : List BibliographySource) (seen : List String)
    (s : BibliographySource) (h : s ∈ uniqByIdGo l seen) : s ∈ l := by
  induction l generalizing seen with
  | nil => simp [uniqByIdGo] at h
  | cons a t ih =>
    simp only [uniqByIdGo] at h
    split at h
    · exact List.mem_cons_of_mem a (ih _ h)
    · rcases List.mem_cons.mp h with h1 | h2
      · exact h1 ▸ List.mem_cons_self a t
      · exact List.mem_cons_of_mem a (ih _ h2)

theorem uniqByIdGo_not_seen (l : List BibliographySource) (seen : List String)
    (s : BibliographySource) (h : s ∈ uniqByIdGo l seen) : s.id ∉ seen := by
  induction l generalizing seen with
  | nil => simp [uniqByIdGo] at h
  | cons a t ih =>
    simp only [uniqByIdGo] at h
    split at h
    · exact ih _ h
    · rename_i hns
      rcases List.mem_cons.mp h with h1 | h2
      · rw [h1]; exact hns
      · intro hs
        exact (ih _ h2) (List.mem_cons_of_mem _ hs)

theorem uniqByIdGo_first (l : List BibliographySource) (seen : List String)
    (s : BibliographySource) (h : s ∈ uniqByIdGo l seen) :
    l.find? (fun t => t.id == s.id) = some s := by
  induction l generalizing seen with
  | nil => simp [uniqByIdGo] at h
  | cons a t ih =>
    simp only [uniqByIdGo] at h
    split at h
    · rename_i hseen
      have hns := uniqByIdGo_not_seen t seen s h
      have hne : ¬((fun t => t.id == s.id) a = true) := by
        simp only [beq_iff_eq]
        intro he
        exact hns (he ▸ hseen)
      rw [show (a :: t).find? (fun t => t.id == s.id) = t.find? (fun t => t.id == s.id)
        from List.find?_cons_of_neg t hne]
      exact ih _ h
    · rename_i hseen
      rcases List.mem_cons.mp h with h1 | h2
      · subst h1
        exact List.find?_cons_of_pos _ (by simp)
      · have hns := uniqByIdGo_not_seen t (a.id :: seen) s h2
        have hne : ¬((fun t => t.id == s.id) a = true) := by
          simp only [beq_iff_eq]
          intro he
          exact hns (he ▸ List.mem_cons_self _ _)
        rw [show (a :: t).find? (fun t => t.id == s.id) = t.find? (fun t => t.id == s.id)
          from List.find?_cons_of_neg t hne]
        exact ih _ h2

theorem uniqByIdGo_covers (l : List BibliographySource) (seen : List String)
    (s : BibliographySource) (hs : s ∈ l) (hid : s.id ∉ seen) :
    ∃ t ∈ uniqByIdGo l seen, t.id = s.id := by
  induction l generalizing seen with
  | nil => simp at hs
  | cons a t ih =>
    simp only [uniqByIdGo]
    rcases List.mem_cons.mp hs with h1 | h2
    · subst h1
      split
    
      · rename_i hseen
        exact absurd hseen hid
      · exact ⟨s, List.mem_cons_self _ _, rfl⟩
    · split
      · exact ih _ h2 hid
      · by_cases he : s.id = a.id
        · exact ⟨a, List.mem_cons_self _ _, he.symm⟩
        · have hid2 : s.id ∉ a.id :: seen := by
            intro hmem
            rcases List.mem_cons.mp hmem with hx | hx
            · exact he hx
            · exact hid hx
          obtain ⟨u, hu, hue⟩ := ih _ h2 hid2
          exact ⟨u, List.mem_cons_of_mem _ hu, hue⟩

theorem uniqByIdGo_ids_nodup (l : List BibliographySource) (seen : List String) :
    ((uniqByIdGo l seen).map (fun s => s.id)).Nodup := by
  induction l generalizing seen with
  | nil => simp [uniqByIdGo]
  | cons a t ih =>
    simp only [uniqByIdGo]
    split
    · exact ih _
    · simp only [List.map_cons, List.nodup_cons]
      constructor
      · intro hmem
        obtain ⟨u, hu, hue⟩ := List.mem_map.mp hmem
        have hns := uniqByIdGo_not_seen t (a.id :: seen) u hu
        apply hns
        rw [hue]
        exact List.mem_cons_self _ _
      · exact ih _

theorem uniqByIdGo_length_le (l : List BibliographySource) (seen : List String) :
    (uniqByIdGo l seen).length ≤ l.length := by
  induction l generalizing seen with
  | nil => simp [uniqByIdGo]
  | cons a t ih =>
    simp only [uniqByIdGo]
    split
    · exact Nat.le_succ_of_le (ih _)
    · simpa using Nat.succ_le_succ (ih _)

theorem uniqById_subset (l : List BibliographySource) (s : BibliographySource)
    (h : s ∈ uniqById l) : s ∈ l :=
  uniqByIdGo_subset l [] s h

theorem uniqById_first (l : List BibliographySource) (s : BibliographySource)
    (h : s ∈ uniqById l) : l.find? (fun t => t.id == s.id) = some s :=
  uniqByIdGo_first l [] s h

theorem uniqById_covers (l : List BibliographySource) (s : BibliographySource)
    (hs : s ∈ l) : ∃ t ∈ uniqById l, t.id = s.id :=
  uniqByIdGo_covers l [] s hs (by simp)

theorem uniqById_ids_nodup (l : List BibliographySource) :
    ((uniqById l).map (fun s => s.id)).Nodup :=
  uniqByIdGo_ids_nodup l []

theorem uniqById_length_le (l : List BibliographySource) :
    (uniqById l).length ≤ l.length :=
  uniqByIdGo_length_le l []

/-! Lemmas about `reduceOr` and `load`. -/

theorem foldl_or_false (l : List Bool) (h : ∀ b ∈ l, b = false) :
    l.foldl (fun prev curr => prev || curr) false = false := by
  induction l with
  | nil => rfl
  | cons c cs ih =>
    have hc : c = false := h c (List.mem_cons_self _ _)
    simp only [List.foldl_cons, hc, Bool.or_false]
    exact ih (fun b hb => h b (List.mem_cons_of_mem _ hb))

theorem reduceOr_eq_false (l : List Bool) (h : ∀ b ∈ l, b = false) :
    reduceOr l = false := by
  cases l with
  | nil => rfl
  | cons b rest =>
    have hb : b = false := h b (List.mem_cons_self _ _)
    simp only [reduceOr, hb]
    exact foldl_or_false rest (fun x hx => h x (List.mem_cons_of_mem _ hx))

theorem load_writable (mgr : BibliographyManager) :
    mgr.load.writable = some mgr.shouldAllowWrites := by
  simp only [BibliographyManager.load, BibliographyManager.updateIndex]
  split <;> rfl

theorem load_providers (mgr : BibliographyManager) :
    mgr.load.providers = mgr.providers := by
  simp only [BibliographyManager.load, BibliographyManager.updateIndex]
  split <;> rfl

theorem load_no_change (mgr : BibliographyManager)
    (h : ∀ p ∈ mgr.providers, p.loadChanged = false) :
    mgr.load.sources = mgr.sources ∧ mgr.load.fuse = mgr.fuse := by
  have hred : reduceOr (mgr.providers.map (fun p => p.loadChanged)) = false := by
    apply reduceOr_eq_false
    intro b hb
    obtain ⟨p, hp, hpb⟩ := List.mem_map.mp hb
    rw [← hpb]
    exact h p hp
  simp only [BibliographyManager.load, BibliographyManager.updateIndex, hred]
  exact ⟨rfl, rfl⟩

/-! Lemmas about search result sizes and empty states. -/

theorem fuseSearch_length_le (snapshot : List BibliographySource)
    (query : String) (limit : Nat) :
    (fuseSearch snapshot query limit).length ≤ limit :=
  List.length_take_le _ _

theorem searchAllSources_length_le (mgr : BibliographyManager)
    (query : String) (limit : Nat) :
    (mgr.searchAllSources query limit).length ≤ limit := by
  unfold BibliographyManager.searchAllSources
  cases hf : mgr.fuse with
  | none => simp
  | some snapshot =>
    simp only []
    split
    · exact Nat.le_trans (uniqById_length_le _) (fuseSearch_length_le _ _ _)
    · exact Nat.le_trans (uniqById_length_le _)
        (Nat.le_trans (List.length_filter_le _ _) (fuseSearch_length_le _ _ _))

theorem allSources_unloaded (mgr : BibliographyManager)
    (hs : mgr.sources = none) : mgr.allSources = [] := by
  simp [BibliographyManager.allSources, hs, uniqById, uniqByIdGo]

theorem searchAllSources_unloaded (mgr : BibliographyManager)
    (hf : mgr.fuse = none) (query : String) (limit : Nat) :
    mgr.searchAllSources query limit = [] := by
  simp [BibliographyManager.searchAllSources, hf]

/-! The claims. -/

/-- Claim C1: for every loaded state, `allSources()` returns the
aggregate source list deduplicated by `id` with the first occurrence
(earliest-registered provider, local before remote) winning — ids are
pairwise distinct, each survivor is the first aggregate element bearing
its id, and every aggregate id survives; when the aggregate is not
writable, the list is first filtered to sources whose `providerKey`
equals the local-provider key and then deduplicated. In the
two-provider scenario (local `[a1, b1]`, remote `[a1, c1]`,
writable = true) `allSources()` yields exactly `[a1 (local), b1, c1]`. -/
theorem claim1_allSources_dedup (mgr : BibliographyManager)
    (srcs : List BibliographySource) (h : mgr.sources = some srcs) :
    (mgr.isWritable = true → mgr.allSources = uniqById srcs) ∧
    (mgr.isWritable = false →
      mgr.allSources =
        uniqById (srcs.filter
          (fun source => source.providerKey == kLocalBiliographyProviderKey))) ∧
    (mgr.allSources.map (fun s => s.id)).Nodup ∧
    (mgr.isWritable = true →
      ∀ s ∈ mgr.allSources, srcs.find? (fun t => t.id == s.id) = some s) ∧
    (mgr.isWritable = true →
      ∀ s ∈ srcs, ∃ t ∈ mgr.allSources, t.id = s.id) ∧
    c1Manager.allSources = [c1A1Local, c1B1Local, c1C1Zotero] := by
  have hw1 : mgr.isWritable = true → mgr.allSources = uniqById srcs := by
    intro hw
    simp [BibliographyManager.allSources, h, hw]
  have hw0 : mgr.isWritable = false →
      mgr.allSources =
        uniqById (srcs.filter
          (fun source => source.providerKey == kLocalBiliographyProviderKey)) := by
    intro hw
    simp [BibliographyManager.allSources, h, hw]
  refine ⟨hw1, hw0, ?_, ?_, ?_, by decide⟩
  · cases hw : mgr.isWritable with
    | false => rw [hw0 hw]; exact uniqById_ids_nodup _
    | true => rw [hw1 hw]; exact uniqById_ids_nodup _
  · intro hw s hs
    rw [hw1 hw] at hs
    exact uniqById_first _ _ hs
  · intro hw s hs
    rw [hw1 hw]
    exact uniqById_covers _ _ hs

/-- Claim C1 witness: the theorem instantiated at the two-provider
scenario manager, whose aggregate is `[a1(local), b1, a1(zotero), c1]`. -/
theorem claim1_witness :
    c1Manager.allSources =
      uniqById [c1A1Local, c1B1Local, c1A1Zotero, c1C1Zotero] :=
  (claim1_allSources_dedup c1Manager
    [c1A1Local, c1B1Local, c1A1Zotero, c1C1Zotero] (by decide)).1 (by decide)

/-- Claim C2, evaluated at the failing input: a Zotero provider exists
for the requested key and its generator resolves to `undefined`, yet
`generateBibLaTeX` returns `undefined` even though the fallback
conversion would have produced a value — the source tests the
truthiness of the promise object returned by the provider (which is
always truthy) instead of the resolved string, so the fallback is never
attempted when a provider matches the key. -/
theorem claim2_generateBibLaTeX_no_fallback :
    c2Manager.generateBibLaTeX "doe2020" c2CSL (some kZoteroProviderKey) = none ∧
    (toBibLaTeX "doe2020" c2CSL).isSome = true :=
  ⟨by decide, by decide⟩

/-- Claim C3, evaluated at the failing input: on a loaded, non-writable
manager whose index holds a local source matching the query `smith`,
the fuzzy search returns the empty list — the non-writable filter
compares the absent open-schema `provider` field (rather than
`providerKey`) with the local-provider key, so local hits are dropped
along with the remote ones. -/
theorem claim3_nonwritable_search_drops_local_hits :
    c3Manager.isWritable = false ∧
    c3Manager.fuse = some [c3SmithSource, c3RemoteSource] ∧
    matchesQuery "smith" c3SmithSource = true ∧
    c3SmithSource.providerKey = kLocalBiliographyProviderKey ∧
    c3Manager.searchAllSources "smith" 1000 = [] ∧
    c3Manager.search (some "smith") none none = [] :=
  ⟨by decide, by decide, by decide, by decide, by decide, by decide⟩

/-- Filtering a replicated list by a predicate its element satisfies
keeps the whole list. -/
theorem filter_replicate_of_pos {α} {p : α → Bool} {a : α}
    (h : p a = true) (n : Nat) :
    (List.replicate n a).filter p = List.replicate n a := by
  induction n with
  | zero => rfl
  | succ n ih => simp [List.replicate_succ, List.filter_cons, h, ih]

/-- Deduplicating a replicated list whose id was already seen yields
nothing. -/
theorem uniqByIdGo_replicate_mem (n : Nat) (a : BibliographySource)
    (seen : List String) (h : a.id ∈ seen) :
    uniqByIdGo (List.replicate n a) seen = [] := by
  induction n with
  | zero => rfl
  | succ n ih => simp [List.replicate_succ, uniqByIdGo, h, ih]

/-- Deduplicating a nonempty replicated list keeps one copy. -/
theorem uniqById_replicate (n : Nat) (a : BibliographySource) :
    uniqById (List.replicate (n + 1) a) = [a] := by
  simp [uniqById, List.replicate_succ, uniqByIdGo,
    uniqByIdGo_replicate_mem n a [a.id] (List.mem_cons_self _ _)]

/-- A provider-scoped search result is no longer than its limit. -/
theorem searchProvider_length_le (mgr : BibliographyManager)
    (query : String) (limit : Nat) (providerKey : String) :
    (mgr.searchProvider query limit providerKey).length ≤ limit :=
  Nat.le_trans (List.length_filter_le _ _) (searchAllSources_length_le _ _ _)

/-- A collection-scoped search result is no longer than its limit. -/
theorem searchProviderCollection_length_le (mgr : BibliographyManager)
    (query : String) (limit : Nat) (providerKey collectionKey : String) :
    (mgr.searchProviderCollection query limit providerKey collectionKey).length ≤ limit :=
  Nat.le_trans (List.length_filter_le _ _) (searchProvider_length_le _ _ _ _)

/-- A global `search` with a truthy query and no provider or collection
key dispatches to `searchAllSources` with the 1000-match limit. -/
theorem search_global_of_truthy (mgr : BibliographyManager) (q : String)
    (hq : truthy (some q) = true) :
    mgr.search (some q) none none = mgr.searchAllSources q 1000 := by
  have hq' : ¬(q = "") := by
    intro he
    subst he
    simp [truthy] at hq
  simp [BibliographyManager.search, truthy, hq']

/-- On a writable manager, `searchAllSources` is the deduplication of
the index hits. -/
theorem searchAllSources_writable (mgr : BibliographyManager)
    (snapshot : List BibliographySource) (hf : mgr.fuse = some snapshot)
    (hw : mgr.isWritable = true) (query : String) (limit : Nat) :
    mgr.searchAllSources query limit = uniqById (fuseSearch snapshot query limit) := by
  simp [BibliographyManager.searchAllSources, hf, hw]

/-- Claim C4 counterexample: a query matched by 1001 sources (more than
the 1000-match cap) for which the fuzzy search returns one result, not
1000 — the cap is applied by the index to the raw hits before the
deduplication by `id`, which here collapses the 1000 retained hits to a
single source. -/
theorem claim4_counterexample :
    1000 < (c4Snapshot.filter (matchesQuery "aaa")).length ∧
    (c4Manager.search (some "aaa") none none).length = 1 := by
  have hmatch : matchesQuery "aaa" c4Source = true := by decide
  have hfilter : c4Snapshot.filter (matchesQuery "aaa") = c4Snapshot :=
    filter_replicate_of_pos hmatch 1001
  constructor
  · rw [hfilter]
    show 1000 < (List.replicate 1001 c4Source).length
    rw [List.length_replicate]
    decide
  · rw [search_global_of_truthy c4Manager "aaa" (by decide),
      searchAllSources_writable c4Manager c4Snapshot rfl rfl "aaa" 1000]
    have hfs : fuseSearch c4Snapshot "aaa" 1000 = List.replicate 1000 c4Source := by
      unfold fuseSearch
      rw [hfilter]
      show (List.replicate 1001 c4Source).take 1000 = _
      rw [List.take_replicate]
      rfl
    rw [hfs, show (1000 : Nat) = 999 + 1 from rfl, uniqById_replicate]
    rfl

/-- Claim C4, amended: every fuzzy search issued through `search` with a
non-empty query returns at most 1000 results; a query matching more
than 1000 sources can return fewer than 1000, because the cap is
applied to the raw hits before deduplication by `id` and before the
provider/collection and non-writable filters. -/
theorem claim4_amended_search_cap (mgr : BibliographyManager) (q : String)
    (hq : q ≠ "") (pk ck : Option String) :
    (mgr.search (some q) pk ck).length ≤ 1000 := by
  have hq1 : truthy (some q) = true := by
    simp [truthy]
    exact hq
  simp only [BibliographyManager.search, hq1, if_true]
  split
  · exact searchProviderCollection_length_le _ _ _ _ _
  · split
    · exact searchProvider_length_le _ _ _ _
    · exact searchAllSources_length_le _ _ _

/-- Claim C4 (amended) witness: the cap theorem instantiated at the
sample manager. -/
theorem claim4_amended_witness :
    (sampleManager.search (some "s1") none none).length ≤ 1000 :=
  claim4_amended_search_cap sampleManager "s1" (by decide) none none

/-- Claim C5: if every provider reports `changed = false`, `load()`
leaves the aggregate source list and the search index exactly as they
were (only the writable flag is recomputed); conversely the source list
or index changes only when at least one provider reported
`changed = true`. -/
theorem claim5_load_frame (mgr : BibliographyManager) :
    ((∀ p ∈ mgr.providers, p.loadChanged = false) →
      mgr.load.sources = mgr.sources ∧ mgr.load.fuse = mgr.fuse) ∧
    ((mgr.load.sources ≠ mgr.sources ∨ mgr.load.fuse ≠ mgr.fuse) →
      ∃ p ∈ mgr.providers, p.loadChanged = true) := by
  constructor
  · exact load_no_change mgr
  · intro hch
    by_contra hnone
    push_neg at hnone
    have hall : ∀ p ∈ mgr.providers, p.loadChanged = false := by
      intro p hp
      have hne := hnone p hp
      simpa using hne
    obtain ⟨h1, h2⟩ := load_no_change mgr hall
    rcases hch with hc | hc
    · exact hc h1
    · exact hc h2

/-- Claim C5 witness: the frame theorem instantiated at a loaded
manager both of whose providers report no change. -/
theorem claim5_witness :
    c5Manager.load.sources = c5Manager.sources ∧
    c5Manager.load.fuse = c5Manager.fuse :=
  (claim5_load_frame c5Manager).1 (by decide)

/-- Claim C6: after any `load()`, `isWritable()` is true exactly when
the providers discovered no bibliography file at all, or at least one
discovered bibliography file is writable. -/
theorem claim6_isWritable_after_load (mgr : BibliographyManager) :
    mgr.load.isWritable = true ↔
      (mgr.bibliographyFiles = [] ∨
        ∃ f ∈ mgr.bibliographyFiles, f.writable = true) := by
  have hwr : mgr.load.isWritable = mgr.shouldAllowWrites := by
    simp [BibliographyManager.isWritable, load_writable]
  rw [hwr]
  simp only [BibliographyManager.shouldAllowWrites]
  split
  · rename_i hlen
    simp only [true_iff]
    exact Or.inl (List.length_eq_zero.mp hlen)
  · rename_i hlen
    have hne : mgr.bibliographyFiles ≠ [] := by
      intro he
      exact hlen (by simp [he])
    simp only [decide_eq_true_eq, gt_iff_lt, hne, false_or]
    constructor
    · intro hpos
      have hfne : mgr.bibliographyFiles.filter (fun f => f.writable) ≠ [] := by
        intro he
        rw [he] at hpos
        simp at hpos
      obtain ⟨x, hx⟩ := List.exists_mem_of_ne_nil _ hfne
      have hmem := List.mem_filter.mp hx
      exact ⟨x, hmem.1, hmem.2⟩
    · rintro ⟨f, hf, hfw⟩
      have hmem : f ∈ mgr.bibliographyFiles.filter (fun f => f.writable) :=
        List.mem_filter.mpr ⟨hf, hfw⟩
      exact List.length_pos.mpr (List.ne_nil_of_mem hmem)

/-- Claim C7: with an empty or undefined query, `search` returns the
corresponding unfiltered list without running the fuzzy index — scoped
to provider and collection it equals `sourcesForProviderCollection`,
scoped to a provider it equals `sourcesForProvider`, and unscoped it
equals `allSources` (provider and collection keys are nonempty strings,
which the dispatch treats as present). -/
theorem claim7_search_empty_query (mgr : BibliographyManager) (p c : String)
    (hp : p ≠ "") (hc : c ≠ "") :
    mgr.search none (some p) (some c) = mgr.sourcesForProviderCollection p c ∧
    mgr.search (some "") (some p) (some c) = mgr.sourcesForProviderCollection p c ∧
    mgr.search none (some p) none = mgr.sourcesForProvider p ∧
    mgr.search (some "") (some p) none = mgr.sourcesForProvider p ∧
    mgr.search none none none = mgr.allSources ∧
    mgr.search (some "") none none = mgr.allSources := by
  refine ⟨?_, ?_, ?_, ?_, ?_, ?_⟩ <;>
    simp [BibliographyManager.search, truthy, hp, hc]

/-- Claim C7 witness: the empty-query identities instantiated at the
loaded sample manager with the local provider key and a collection. -/
theorem claim7_witness :
    sampleManager.search none (some kLocalBiliographyProviderKey) (some "col") =
      sampleManager.sourcesForProviderCollection kLocalBiliographyProviderKey "col" ∧
    sampleManager.search (some "") (some kLocalBiliographyProviderKey) (some "col") =
      sampleManager.sourcesForProviderCollection kLocalBiliographyProviderKey "col" ∧
    sampleManager.search none (some kLocalBiliographyProviderKey) none =
      sampleManager.sourcesForProvider kLocalBiliographyProviderKey ∧
    sampleManager.search (some "") (some kLocalBiliographyProviderKey) none =
      sampleManager.sourcesForProvider kLocalBiliographyProviderKey ∧
    sampleManager.search none none none = sampleManager.allSources ∧
    sampleManager.search (some "") none none = sampleManager.allSources :=
  claim7_search_empty_query sampleManager kLocalBiliographyProviderKey "col"
    (by decide) (by decide)

/-- Claim C8: on an unloaded manager (no `sources`, no index) every
query operation — `allSources`, `sourcesForProvider`,
`sourcesForProviderCollection`, and `search` with any combination of
arguments — returns the empty list (the operations are total, so none
of them can fail). -/
theorem claim8_unloaded_queries_empty (mgr : BibliographyManager)
    (hs : mgr.sources = none) (hf : mgr.fuse = none) :
    mgr.allSources = [] ∧
    (∀ p, mgr.sourcesForProvider p = []) ∧
    (∀ p c, mgr.sourcesForProviderCollection p c = []) ∧
    (∀ q pk ck, mgr.search q pk ck = []) := by
  have h1 : mgr.allSources = [] := allSources_unloaded mgr hs
  have h2 : ∀ p, mgr.sourcesForProvider p = [] := by
    intro p
    simp [BibliographyManager.sourcesForProvider, h1, uniqById, uniqByIdGo]
  have h3 : ∀ p c, mgr.sourcesForProviderCollection p c = [] := by
    intro p c
    simp [BibliographyManager.sourcesForProviderCollection, h2 p, uniqById, uniqByIdGo]
  have h4 : ∀ q limit, mgr.searchAllSources q limit = [] :=
    fun q limit => searchAllSources_unloaded mgr hf q limit
  have h5 : ∀ q limit pk, mgr.searchProvider q limit pk = [] := by
    intro q limit pk
    simp [BibliographyManager.searchProvider, h4 q limit]
  have h6 : ∀ q limit pk ck, mgr.searchProviderCollection q limit pk ck = [] := by
    intro q limit pk ck
    simp [BibliographyManager.searchProviderCollection, h5 q limit pk]
  refine ⟨h1, h2, h3, ?_⟩
  intro q pk ck
  simp only [BibliographyManager.search]
  split
  · split
    · exact h6 _ _ _ _
    · split
      · exact h5 _ _ _
      · exact h4 _ _
  · split
    · exact h3 _ _
    · split
      · exact h2 _
      · exact h1

/-- Claim C8 witness: the freshly constructed manager returns the empty
list for a fuzzy query and for the aggregate list. -/
theorem claim8_witness :
    c8Manager.search (some "smith") none none = [] ∧
    c8Manager.allSources = [] :=
  ⟨(claim8_unloaded_queries_empty c8Manager rfl rfl).2.2.2 (some "smith") none none,
   (claim8_unloaded_queries_empty c8Manager rfl rfl).1⟩

/-- Claim C9: a collection key passed to `search` without a provider
key is ignored — with a non-empty query the result is the global fuzzy
search, and with an empty or undefined query it is `allSources()`. -/
theorem claim9_collectionKey_ignored_without_provider
    (mgr : BibliographyManager) (q ck : String) (hq : q ≠ "") :
    mgr.search (some q) none (some ck) = mgr.searchAllSources q 1000 ∧
    mgr.search none none (some ck) = mgr.allSources ∧
    mgr.search (some "") none (some ck) = mgr.allSources := by
  refine ⟨?_, ?_, ?_⟩ <;> simp [BibliographyManager.search, truthy, hq]

/-- Claim C9 witness: the collection-without-provider dispatch
instantiated at the sample manager. -/
theorem claim9_witness :
    sampleManager.search (some "s1") none (some "col") =
      sampleManager.searchAllSources "s1" 1000 ∧
    sampleManager.search none none (some "col") = sampleManager.allSources ∧
    sampleManager.search (some "") none (some "col") = sampleManager.allSources :=
  claim9_collectionKey_ignored_without_provider sampleManager "s1" "col" (by decide)

/-- Claim C10: `localProviders()` returns the entire registered
provider list — for a constructed manager both the local and the Zotero
provider, in registration order, before and after `load()` — and
performs no filtering. -/
theorem claim10_localProviders_unfiltered
    (lp zp : BibliographyDataProvider) (mgr : BibliographyManager) :
    mgr.localProviders = mgr.providers ∧
    (BibliographyManager.init lp zp).localProviders = [lp, zp] ∧
    (BibliographyManager.init lp zp).load.localProviders = [lp, zp] ∧
    c1Manager.localProviders = [c1LocalProvider, c1ZoteroProvider] := by
  refine ⟨rfl, rfl, ?_, rfl⟩
  show (BibliographyManager.init lp zp).load.providers = [lp, zp]
  rw [load_providers]
  rfl
